import Mathlib

/-!
Shallow embedding of the udm-rasteriser pipeline (classes/fishnet.py and
classes/rasteriser.py) over exact rational arithmetic, together with proofs
about the grid generation, aggregation, classification and rasterisation
metadata computed by the code.

Coordinates and areas are modelled as rationals; Python `math.ceil` becomes
Int.ceil, Python `int()` truncation becomes `pyInt` below.
-/

/-- Bounding box (xmin, ymin, xmax, ymax) in EPSG:27700 coordinates. -/
structure BBox where
  xmin : ℚ
  ymin : ℚ
  xmax : ℚ
  ymax : ℚ
deriving DecidableEq, Repr

/-- One fishnet grid cell: its FID field and its polygon ring, exactly the
points passed to ring.AddPoint in FishNet.create. -/
structure Cell where
  fid : ℤ
  ring : List (ℚ × ℚ)
deriving DecidableEq, Repr

/-- The five AddPoint calls in FishNet.create (fishnet.py lines 206-211):
left-top, right-top, right-bottom, left-bottom, left-top again. -/
def makeRing (xL xR yT yB : ℚ) : List (ℚ × ℚ) :=
  [(xL, yT), (xR, yT), (xR, yB), (xL, yB), (xL, yT)]

/-- Inner while loop of FishNet.create (lines 203-225): generate one column of
cells top to bottom, moving the y envelope down by the grid height and
incrementing the FID after each cell. -/
def genColumn : ℕ → ℚ → ℚ → ℚ → ℚ → ℚ → ℤ → List Cell
  | 0, _, _, _, _, _, _ => []
  | n + 1, xL, xR, yT, yB, h, fid =>
      ⟨fid, makeRing xL xR yT yB⟩ :: genColumn n xL xR (yT - h) (yB - h) h (fid + 1)

/-- Outer while loop of FishNet.create (lines 195-229): generate the columns
left to right, resetting the y envelope for each column and moving the x
envelope right by the grid width.  After a column of `rows` cells the FID
counter has advanced by `rows`. -/
def genColumns : ℕ → ℕ → ℚ → ℚ → ℚ → ℚ → ℚ → ℚ → ℤ → List Cell
  | 0, _, _, _, _, _, _, _, _ => []
  | c + 1, rows, xL, xR, yT, yB, w, h, fid =>
      genColumn rows xL xR yT yB h fid ++
        genColumns c rows (xL + w) (xR + w) yT yB w h (fid + rows)

/-- Row count of the fishnet, fishnet.py line 148: ceil((ymax-ymin)/height). -/
def rowsZ (b : BBox) (netsize : ℚ) : ℤ := ⌈(b.ymax - b.ymin) / netsize⌉

/-- Column count of the fishnet, fishnet.py line 149: ceil((xmax-xmin)/width). -/
def colsZ (b : BBox) (netsize : ℚ) : ℤ := ⌈(b.xmax - b.xmin) / netsize⌉

/-- The grid cells written by FishNet.create for a bounding box: the loops run
max(cols,0) x max(rows,0) times starting from the envelope
(xmin, xmin+width, ymax, ymax-height) with FID counter 1 (lines 152-156, 193). -/
def fishnetCells (b : BBox) (netsize : ℚ) : List Cell :=
  genColumns (colsZ b netsize).toNat (rowsZ b netsize).toNat
    b.xmin (b.xmin + netsize) b.ymax (b.ymax - netsize) netsize netsize 1

/-- Python int() truncation toward zero, as applied to the raster dimensions
in rasteriser.py lines 214-215. -/
def pyInt (q : ℚ) : ℤ := if q < 0 then ⌈q⌉ else ⌊q⌋

/-- Point-in-cell test for the rectangular rings produced by makeRing: the
ring read as a filled axis-aligned rectangle.  Used to state coverage. -/
def ringContains (ring : List (ℚ × ℚ)) (p : ℚ × ℚ) : Prop :=
  match ring with
  | [(xL, yT), (xR, _), (_, yB), _, _] =>
      xL ≤ p.1 ∧ p.1 ≤ xR ∧ yB ≤ p.2 ∧ p.2 ≤ yT
  | _ => False

/- ### Helper lemmas about the generator -/

theorem genColumn_length (n : ℕ) (xL xR yT yB h : ℚ) (fid : ℤ) :
    (genColumn n xL xR yT yB h fid).length = n := by
  induction n generalizing yT yB fid with
  | zero => rfl
  | succ m ih => simp [genColumn, ih]

theorem genColumn_getElem? (n r : ℕ) (xL xR yT yB h : ℚ) (fid : ℤ) (hr : r < n) :
    (genColumn n xL xR yT yB h fid)[r]? =
      some ⟨fid + r, makeRing xL xR (yT - r * h) (yB - r * h)⟩ := by
  induction n generalizing r yT yB fid with
  | zero => omega
  | succ m ih =>
    cases r with
    | zero => simp [genColumn]
    | succ r₀ =>
      have hr₀ : r₀ < m := by omega
      simp only [genColumn, List.getElem?_cons_succ, ih r₀ (yT - h) (yB - h) (fid + 1) hr₀]
      congr 2
      · push_cast; ring
      · simp only [makeRing]
        congr 1 <;> push_cast <;> ring_nf

theorem genColumns_length (cols rows : ℕ) (xL xR yT yB w h : ℚ) (fid : ℤ) :
    (genColumns cols rows xL xR yT yB w h fid).length = cols * rows := by
  induction cols generalizing xL xR fid with
  | zero => simp [genColumns]
  | succ c ih =>
    simp [genColumns, genColumn_length, ih, Nat.succ_mul, Nat.add_comm]

theorem genColumns_getElem? (cols rows c r : ℕ) (xL xR yT yB w h : ℚ) (fid : ℤ)
    (hc : c < cols) (hr : r < rows) :
    (genColumns cols rows xL xR yT yB w h fid)[c * rows + r]? =
      some ⟨fid + (c * rows + r),
        makeRing (xL + c * w) (xR + c * w) (yT - r * h) (yB - r * h)⟩ := by
  induction cols generalizing c xL xR fid with
  | zero => omega
  | succ n ih =>
    rw [genColumns, List.getElem?_append]
    cases c with
    | zero =>
      have hlt : 0 * rows + r < (genColumn rows xL xR yT yB h fid).length := by
        rw [genColumn_length]; omega
      rw [if_pos hlt]
      have := genColumn_getElem? rows r xL xR yT yB h fid hr
      simp only [Nat.zero_mul, Nat.zero_add] at *
      rw [this]
      congr 3 <;> push_cast <;> ring
    | succ c₀ =>
      have hge : ¬ (c₀ + 1) * rows + r < (genColumn rows xL xR yT yB h fid).length := by
        rw [genColumn_length]
        have : rows ≤ (c₀ + 1) * rows := Nat.le_mul_of_pos_left rows (Nat.succ_pos c₀)
        omega
      rw [if_neg hge]
      have hidx : (c₀ + 1) * rows + r - (genColumn rows xL xR yT yB h fid).length
          = c₀ * rows + r := by
        rw [genColumn_length, Nat.succ_mul]; omega
      rw [hidx, ih c₀ (xL + w) (xR + w) (fid + rows) (by omega)]
      congr 2
      · push_cast; ring
      · simp only [makeRing]
        congr 1 <;> push_cast <;> ring_nf

theorem fishnetCells_length (b : BBox) (s : ℚ) :
    (fishnetCells b s).length = (colsZ b s).toNat * (rowsZ b s).toNat :=
  genColumns_length _ _ _ _ _ _ _ _ _

theorem fishnetCells_getElem? (b : BBox) (s : ℚ) (c r : ℕ)
    (hc : c < (colsZ b s).toNat) (hr : r < (rowsZ b s).toNat) :
    (fishnetCells b s)[c * (rowsZ b s).toNat + r]? =
      some ⟨1 + (c * (rowsZ b s).toNat + r),
        makeRing (b.xmin + c * s) (b.xmin + c * s + s)
          (b.ymax - r * s) (b.ymax - r * s - s)⟩ := by
  rw [fishnetCells, genColumns_getElem? _ _ c r _ _ _ _ _ _ _ hc hr]
  congr 2
  simp only [makeRing]
  congr 1 <;> push_cast <;> ring_nf

theorem fishnetCells_getElem_idx (b : BBox) (s : ℚ) (i : ℕ)
    (hi : i < (colsZ b s).toNat * (rowsZ b s).toNat) :
    (fishnetCells b s)[i]? =
      some ⟨1 + i,
        makeRing (b.xmin + ((i / (rowsZ b s).toNat : ℕ) : ℚ) * s)
          (b.xmin + ((i / (rowsZ b s).toNat : ℕ) : ℚ) * s + s)
          (b.ymax - ((i % (rowsZ b s).toNat : ℕ) : ℚ) * s)
          (b.ymax - ((i % (rowsZ b s).toNat : ℕ) : ℚ) * s - s)⟩ := by
  have hrpos : 0 < (rowsZ b s).toNat := by
    by_contra h
    push_neg at h
    have h0 : (rowsZ b s).toNat = 0 := by omega
    rw [h0, Nat.mul_zero] at hi
    exact absurd hi (Nat.not_lt_zero i)
  have hc : i / (rowsZ b s).toNat < (colsZ b s).toNat :=
    (Nat.div_lt_iff_lt_mul hrpos).mpr hi
  have hr : i % (rowsZ b s).toNat < (rowsZ b s).toNat := Nat.mod_lt _ hrpos
  have hidx : i / (rowsZ b s).toNat * (rowsZ b s).toNat + i % (rowsZ b s).toNat = i := by
    have h := Nat.div_add_mod i (rowsZ b s).toNat
    rw [Nat.mul_comm] at h
    exact h
  have hmain := fishnetCells_getElem? b s (i / (rowsZ b s).toNat)
    (i % (rowsZ b s).toNat) hc hr
  rw [hidx] at hmain
  rw [hmain]
  congr 2
  have hz : ((i / (rowsZ b s).toNat * (rowsZ b s).toNat + i % (rowsZ b s).toNat : ℕ) : ℤ)
      = (i : ℤ) := by exact_mod_cast congrArg (Nat.cast : ℕ → ℤ) hidx
  push_cast at hz
  omega

theorem fishnetCells_map_fid (b : BBox) (s : ℚ) :
    (fishnetCells b s).map Cell.fid
      = (List.range ((colsZ b s).toNat * (rowsZ b s).toNat)).map
          (fun i : ℕ => (i : ℤ) + 1) := by
  apply List.ext_getElem?
  intro n
  by_cases hn : n < (colsZ b s).toNat * (rowsZ b s).toNat
  · rw [List.getElem?_map, fishnetCells_getElem_idx b s n hn, List.getElem?_map,
      List.getElem?_range hn]
    simp [Int.add_comm]
  · rw [List.getElem?_eq_none, List.getElem?_eq_none]
    · simp only [List.length_map, List.length_range]; omega
    · rw [List.length_map, fishnetCells_length]; omega

theorem exists_fit (q : ℚ) (N : ℕ) (h0 : 0 ≤ q) (hN : q ≤ N) (hN1 : 1 ≤ N) :
    ∃ c : ℕ, c < N ∧ (c : ℚ) ≤ q ∧ q ≤ (c : ℚ) + 1 := by
  have hfl : (0 : ℤ) ≤ ⌊q⌋ := Int.floor_nonneg.mpr h0
  have htn : ((⌊q⌋.toNat : ℕ) : ℚ) = ((⌊q⌋ : ℤ) : ℚ) := by
    exact_mod_cast congrArg (Int.cast : ℤ → ℚ) (Int.toNat_of_nonneg hfl)
  by_cases hcase : ⌊q⌋.toNat ≤ N - 1
  · refine ⟨⌊q⌋.toNat, by omega, ?_, ?_⟩
    · rw [htn]; exact Int.floor_le q
    · rw [htn]; exact le_of_lt (Int.lt_floor_add_one q)
  · refine ⟨N - 1, by omega, ?_, ?_⟩
    · have hge : (N : ℤ) ≤ ⌊q⌋ := by omega
      have hNq : (N : ℚ) ≤ q := by
        have h2 := le_trans
          (show ((N : ℤ) : ℚ) ≤ ((⌊q⌋ : ℤ) : ℚ) by exact_mod_cast hge)
          (Int.floor_le q)
        exact_mod_cast h2
      have hcast : ((N - 1 : ℕ) : ℚ) = (N : ℚ) - 1 := by
        rw [Nat.cast_sub hN1]; norm_num
      rw [hcast]; linarith
    · have hcast : ((N - 1 : ℕ) : ℚ) = (N : ℚ) - 1 := by
        rw [Nat.cast_sub hN1]; norm_num
      rw [hcast]; linarith

theorem fishnetCells_cover (b : BBox) (s : ℚ) (hs : 0 < s)
    (hx : b.xmin < b.xmax) (hy : b.ymin < b.ymax)
    (x y : ℚ) (hx1 : b.xmin ≤ x) (hx2 : x ≤ b.xmax)
    (hy1 : b.ymin ≤ y) (hy2 : y ≤ b.ymax) :
    ∃ cl ∈ fishnetCells b s, ringContains cl.ring (x, y) := by
  have hcolpos : 0 < colsZ b s := Int.ceil_pos.mpr (div_pos (by linarith) hs)
  have hrowpos : 0 < rowsZ b s := Int.ceil_pos.mpr (div_pos (by linarith) hs)
  have hcolsN : 1 ≤ (colsZ b s).toNat := by omega
  have hrowsN : 1 ≤ (rowsZ b s).toNat := by omega
  have hcolcast : ((colsZ b s : ℤ) : ℚ) ≤ ((colsZ b s).toNat : ℚ) := by
    rw [show ((colsZ b s).toNat : ℚ) = ((colsZ b s : ℤ) : ℚ) by
      exact_mod_cast congrArg (Int.cast : ℤ → ℚ) (Int.toNat_of_nonneg hcolpos.le)]
  have hrowcast : ((rowsZ b s : ℤ) : ℚ) ≤ ((rowsZ b s).toNat : ℚ) := by
    rw [show ((rowsZ b s).toNat : ℚ) = ((rowsZ b s : ℤ) : ℚ) by
      exact_mod_cast congrArg (Int.cast : ℤ → ℚ) (Int.toNat_of_nonneg hrowpos.le)]
  have hqx0 : 0 ≤ (x - b.xmin) / s := div_nonneg (by linarith) hs.le
  have hqxN : (x - b.xmin) / s ≤ ((colsZ b s).toNat : ℚ) := by
    have h1 : (x - b.xmin) / s ≤ (b.xmax - b.xmin) / s :=
      (div_le_div_right hs).mpr (by linarith)
    exact le_trans (le_trans h1 (Int.le_ceil _)) hcolcast
  have hqy0 : 0 ≤ (b.ymax - y) / s := div_nonneg (by linarith) hs.le
  have hqyN : (b.ymax - y) / s ≤ ((rowsZ b s).toNat : ℚ) := by
    have h1 : (b.ymax - y) / s ≤ (b.ymax - b.ymin) / s :=
      (div_le_div_right hs).mpr (by linarith)
    exact le_trans (le_trans h1 (Int.le_ceil _)) hrowcast
  obtain ⟨c, hc, hcle, hcge⟩ := exists_fit _ _ hqx0 hqxN hcolsN
  obtain ⟨r, hr, hrle, hrge⟩ := exists_fit _ _ hqy0 hqyN hrowsN
  refine ⟨⟨1 + (c * (rowsZ b s).toNat + r),
    makeRing (b.xmin + c * s) (b.xmin + c * s + s)
      (b.ymax - r * s) (b.ymax - r * s - s)⟩,
    List.getElem?_mem (fishnetCells_getElem? b s c r hc hr), ?_⟩
  simp only [ringContains, makeRing]
  have hc1 : (c : ℚ) * s ≤ x - b.xmin := (le_div_iff hs).mp hcle
  have hc2 : x - b.xmin ≤ ((c : ℚ) + 1) * s := (div_le_iff hs).mp hcge
  have hr1 : (r : ℚ) * s ≤ b.ymax - y := (le_div_iff hs).mp hrle
  have hr2 : b.ymax - y ≤ ((r : ℚ) + 1) * s := (div_le_iff hs).mp hrge
  refine ⟨by linarith, by nlinarith, by nlinarith, by linarith⟩

/-- All coordinates of every cell geometry, as scanned by the geopandas
total_bounds property used at rasteriser.py line 185. -/
def allPoints (cells : List Cell) : List (ℚ × ℚ) := cells.flatMap Cell.ring

/-- The total_bounds of a cell collection: componentwise minima and maxima of
every geometry coordinate (geopandas semantics of fishnet.total_bounds). -/
def totalBounds (cells : List Cell) : BBox :=
  { xmin := ((allPoints cells).map Prod.fst).minimum.untop' 0
    ymin := ((allPoints cells).map Prod.snd).minimum.untop' 0
    xmax := ((allPoints cells).map Prod.fst).maximum.unbot' 0
    ymax := ((allPoints cells).map Prod.snd).maximum.unbot' 0 }

theorem mem_makeRing (p : ℚ × ℚ) (xL xR yT yB : ℚ) (hp : p ∈ makeRing xL xR yT yB) :
    (p.1 = xL ∨ p.1 = xR) ∧ (p.2 = yT ∨ p.2 = yB) := by
  simp only [makeRing, List.mem_cons, List.not_mem_nil, or_false] at hp
  rcases hp with rfl | rfl | rfl | rfl | rfl <;> simp

theorem fishnetCells_point_bounds (b : BBox) (s : ℚ) (hs : 0 ≤ s)
    (cl : Cell) (hcl : cl ∈ fishnetCells b s) (p : ℚ × ℚ) (hp : p ∈ cl.ring) :
    b.xmin ≤ p.1 ∧ p.1 ≤ b.xmin + ((colsZ b s).toNat : ℚ) * s ∧
      b.ymax - ((rowsZ b s).toNat : ℚ) * s ≤ p.2 ∧ p.2 ≤ b.ymax := by
  obtain ⟨i, hi⟩ := List.mem_iff_getElem?.mp hcl
  have hlen : i < (colsZ b s).toNat * (rowsZ b s).toNat := by
    have h1 := (List.getElem?_eq_some.mp hi).1
    rwa [fishnetCells_length] at h1
  rw [fishnetCells_getElem_idx b s i hlen] at hi
  have hring : cl.ring
      = makeRing (b.xmin + ((i / (rowsZ b s).toNat : ℕ) : ℚ) * s)
          (b.xmin + ((i / (rowsZ b s).toNat : ℕ) : ℚ) * s + s)
          (b.ymax - ((i % (rowsZ b s).toNat : ℕ) : ℚ) * s)
          (b.ymax - ((i % (rowsZ b s).toNat : ℕ) : ℚ) * s - s) := by
    have := Option.some.inj hi
    rw [← this]
  rw [hring] at hp
  obtain ⟨hpx, hpy⟩ := mem_makeRing _ _ _ _ _ hp
  have hrpos : 0 < (rowsZ b s).toNat := by
    by_contra h
    push_neg at h
    have h0 : (rowsZ b s).toNat = 0 := by omega
    rw [h0, Nat.mul_zero] at hlen
    exact absurd hlen (Nat.not_lt_zero i)
  have hcN : i / (rowsZ b s).toNat + 1 ≤ (colsZ b s).toNat := by
    have := (Nat.div_lt_iff_lt_mul hrpos).mpr hlen
    omega
  have hrN : i % (rowsZ b s).toNat + 1 ≤ (rowsZ b s).toNat := by
    have := Nat.mod_lt i hrpos
    omega
  have hcQ : ((i / (rowsZ b s).toNat : ℕ) : ℚ) + 1 ≤ ((colsZ b s).toNat : ℚ) := by
    exact_mod_cast hcN
  have hrQ : ((i % (rowsZ b s).toNat : ℕ) : ℚ) + 1 ≤ ((rowsZ b s).toNat : ℚ) := by
    exact_mod_cast hrN
  have hc0 : (0 : ℚ) ≤ ((i / (rowsZ b s).toNat : ℕ) : ℚ) := Nat.cast_nonneg _
  have hr0 : (0 : ℚ) ≤ ((i % (rowsZ b s).toNat : ℕ) : ℚ) := Nat.cast_nonneg _
  refine ⟨?_, ?_, ?_, ?_⟩
  · rcases hpx with h | h <;> rw [h] <;> nlinarith
  · rcases hpx with h | h <;> rw [h] <;> nlinarith
  · rcases hpy with h | h <;> rw [h] <;> nlinarith
  · rcases hpy with h | h <;> rw [h] <;> nlinarith

theorem fishnetCells_corner_tl (b : BBox) (s : ℚ)
    (hc : 1 ≤ (colsZ b s).toNat) (hr : 1 ≤ (rowsZ b s).toNat) :
    ((b.xmin : ℚ), (b.ymax : ℚ)) ∈ allPoints (fishnetCells b s) := by
  have hlen : 0 < (colsZ b s).toNat * (rowsZ b s).toNat := Nat.mul_pos hc hr
  have hcell := fishnetCells_getElem_idx b s 0 hlen
  apply List.mem_flatMap.mpr
  refine ⟨_, List.getElem?_mem hcell, ?_⟩
  simp [makeRing]

theorem fishnetCells_corner_br (b : BBox) (s : ℚ)
    (hc : 1 ≤ (colsZ b s).toNat) (hr : 1 ≤ (rowsZ b s).toNat) :
    ((b.xmin + ((colsZ b s).toNat : ℚ) * s : ℚ),
      (b.ymax - ((rowsZ b s).toNat : ℚ) * s : ℚ)) ∈ allPoints (fishnetCells b s) := by
  have hcell := fishnetCells_getElem? b s ((colsZ b s).toNat - 1) ((rowsZ b s).toNat - 1)
    (by omega) (by omega)
  apply List.mem_flatMap.mpr
  refine ⟨_, List.getElem?_mem hcell, ?_⟩
  have hcastc : (((colsZ b s).toNat - 1 : ℕ) : ℚ) = ((colsZ b s).toNat : ℚ) - 1 := by
    rw [Nat.cast_sub hc]; norm_num
  have hcastr : (((rowsZ b s).toNat - 1 : ℕ) : ℚ) = ((rowsZ b s).toNat : ℚ) - 1 := by
    rw [Nat.cast_sub hr]; norm_num
  have hpt : ((b.xmin + ((colsZ b s).toNat : ℚ) * s : ℚ),
      (b.ymax - ((rowsZ b s).toNat : ℚ) * s : ℚ))
      = ((b.xmin + (((colsZ b s).toNat - 1 : ℕ) : ℚ) * s + s : ℚ),
        (b.ymax - (((rowsZ b s).toNat - 1 : ℕ) : ℚ) * s - s : ℚ)) := by
    rw [Prod.mk.injEq]
    exact ⟨by rw [hcastc]; ring, by rw [hcastr]; ring⟩
  rw [hpt]
  simp [makeRing]

theorem totalBounds_fishnetCells (b : BBox) (s : ℚ) (hs : 0 < s)
    (hx : b.xmin < b.xmax) (hy : b.ymin < b.ymax) :
    totalBounds (fishnetCells b s) =
      ⟨b.xmin, b.ymax - ((rowsZ b s).toNat : ℚ) * s,
        b.xmin + ((colsZ b s).toNat : ℚ) * s, b.ymax⟩ := by
  have hcolpos : 0 < colsZ b s := Int.ceil_pos.mpr (div_pos (by linarith) hs)
  have hrowpos : 0 < rowsZ b s := Int.ceil_pos.mpr (div_pos (by linarith) hs)
  have hc1 : 1 ≤ (colsZ b s).toNat := by omega
  have hr1 : 1 ≤ (rowsZ b s).toNat := by omega
  have hminx : ((allPoints (fishnetCells b s)).map Prod.fst).minimum
      = (b.xmin : WithTop ℚ) := by
    rw [List.minimum_eq_coe_iff]
    refine ⟨List.mem_map.mpr ⟨_, fishnetCells_corner_tl b s hc1 hr1, rfl⟩, ?_⟩
    intro a ha
    obtain ⟨p, hpmem, rfl⟩ := List.mem_map.mp ha
    obtain ⟨cl, hcl, hpr⟩ := List.mem_flatMap.mp hpmem
    exact (fishnetCells_point_bounds b s hs.le cl hcl p hpr).1
  have hmaxx : ((allPoints (fishnetCells b s)).map Prod.fst).maximum
      = ((b.xmin + ((colsZ b s).toNat : ℚ) * s : ℚ) : WithBot ℚ) := by
    rw [List.maximum_eq_coe_iff]
    refine ⟨List.mem_map.mpr ⟨_, fishnetCells_corner_br b s hc1 hr1, rfl⟩, ?_⟩
    intro a ha
    obtain ⟨p, hpmem, rfl⟩ := List.mem_map.mp ha
    obtain ⟨cl, hcl, hpr⟩ := List.mem_flatMap.mp hpmem
    exact (fishnetCells_point_bounds b s hs.le cl hcl p hpr).2.1
  have hminy : ((allPoints (fishnetCells b s)).map Prod.snd).minimum
      = ((b.ymax - ((rowsZ b s).toNat : ℚ) * s : ℚ) : WithTop ℚ) := by
    rw [List.minimum_eq_coe_iff]
    refine ⟨List.mem_map.mpr ⟨_, fishnetCells_corner_br b s hc1 hr1, rfl⟩, ?_⟩
    intro a ha
    obtain ⟨p, hpmem, rfl⟩ := List.mem_map.mp ha
    obtain ⟨cl, hcl, hpr⟩ := List.mem_flatMap.mp hpmem
    exact (fishnetCells_point_bounds b s hs.le cl hcl p hpr).2.2.1
  have hmaxy : ((allPoints (fishnetCells b s)).map Prod.snd).maximum
      = (b.ymax : WithBot ℚ) := by
    rw [List.maximum_eq_coe_iff]
    refine ⟨List.mem_map.mpr ⟨_, fishnetCells_corner_tl b s hc1 hr1, rfl⟩, ?_⟩
    intro a ha
    obtain ⟨p, hpmem, rfl⟩ := List.mem_map.mp ha
    obtain ⟨cl, hcl, hpr⟩ := List.mem_flatMap.mp hpmem
    exact (fishnetCells_point_bounds b s hs.le cl hcl p hpr).2.2.2
  rw [totalBounds, BBox.mk.injEq]
  rw [hminx, hmaxx, hminy, hmaxy]
  exact ⟨WithTop.untop'_coe _ _, WithTop.untop'_coe _ _,
    WithBot.unbot'_coe _ _, WithBot.unbot'_coe _ _⟩

/- ### Rasteriser embedding -/

/-- Raster metadata computed in Rasteriser.create, rasteriser.py lines 214-215
and 230-231: dimensions by int() truncation of the fishnet total_bounds span
over the resolution, and the affine geotransform passed to SetGeoTransform. -/
structure RasterMeta where
  xdim : ℤ
  ydim : ℤ
  geotransform : ℚ × ℚ × ℚ × ℚ × ℚ × ℚ
deriving DecidableEq, Repr

/-- The raster metadata derived from a fishnet cell list exactly as in
Rasteriser.create: bounds come from fishnet.total_bounds (line 185), the
dimensions from int((max-min)/resolution) (lines 214-215), the geotransform
from line 231. -/
def rasterMetaOf (cells : List Cell) (resolution : ℚ) : RasterMeta :=
  { xdim := pyInt (((totalBounds cells).xmax - (totalBounds cells).xmin) / resolution)
    ydim := pyInt (((totalBounds cells).ymax - (totalBounds cells).ymin) / resolution)
    geotransform := ((totalBounds cells).xmin, resolution, 0,
      (totalBounds cells).ymax, 0, -resolution) }

/-- Classification of one merged row, rasteriser.py lines 206-209: strictly
greater than the threshold takes the first branch, whose value is 0 exactly
when invert is set. -/
def classify (area threshold : ℚ) (invert : Bool) : ℤ :=
  if area > threshold then (if invert then 0 else 1) else (if invert then 1 else 0)

/-- Per-FID sum of intersection fragment areas: the
intersection.groupby over FID followed by area.sum() at line 202.  A fragment
is the owning cell FID paired with the fragment area. -/
def groupbySumArea (frags : List (ℤ × ℚ)) (fid : ℤ) : ℚ :=
  ((frags.filter (fun f => f.1 == fid)).map (fun f => f.2)).sum

/-- The merge at rasteriser.py line 202:
fishnet.merge(intersection.groupby(FID).area.sum()/100.0, on=FID).
pandas merge defaults to an inner join, so only the fishnet rows whose FID
occurs among the fragments survive; each surviving row carries the summed
fragment area divided by the constant 100. -/
def intMerge (cells : List Cell) (frags : List (ℤ × ℚ)) : List (Cell × ℚ) :=
  (cells.filter (fun c => frags.any (fun f => f.1 == c.fid))).map
    (fun c => (c, groupbySumArea frags c.fid / 100))

/-- The loop at rasteriser.py lines 204-209 assigning include_me per row of the
merged frame. -/
def assignInclude (merged : List (Cell × ℚ)) (threshold : ℚ) (invert : Bool) :
    List (Cell × ℚ × ℤ) :=
  merged.map (fun e => (e.1, e.2, classify e.2 threshold invert))

/-- Python-level exceptions relevant to the embedded code.  The
validationError constructor is the error kind the specification prescribes for
schema violations; the source never constructs it. -/
inductive PyError
  | valueError (msg : String)
  | validationError (fields : List String)
deriving DecidableEq, Repr

/-- True exactly for the validationError kind. -/
def isValidationError : PyError → Bool
  | .validationError _ => true
  | _ => false

/-- Which boundary mode Rasteriser.create settles on (rasteriser.py 166-182). -/
inductive BoundarySource
  | fromBBox (b : List ℚ)
  | fromSupplied (f : List Cell)
  | fromLads (codes : List String)
deriving DecidableEq, Repr

/-- The if/elif/elif/else chain of Rasteriser.create lines 166-182: a non-None
bounding box wins, then a supplied fishnet, then a non-empty area_codes list;
with none of the three a ValueError is raised. -/
def chooseBoundary (bounding_box : Option (List ℚ)) (fishnet : Option (List Cell))
    (area_codes : List String) : Except PyError BoundarySource :=
  match bounding_box with
  | some bb => .ok (.fromBBox bb)
  | none =>
    match fishnet with
    | some f => .ok (.fromSupplied f)
    | none =>
      if area_codes.length > 0 then .ok (.fromLads area_codes)
      else .error (.valueError "No boundary information supplied - please supply fishnet GeoJSON, bounding box, or list of LAD codes")

/-- Python truthiness of the lad argument tested at fishnet.py line 120:
false for None and for an empty list. -/
def pyTruthy (lad : Option (List String)) : Bool :=
  match lad with
  | none => false
  | some l => !l.isEmpty

/-- fishnet.py lines 119-139: aoi starts as the bbox and is replaced by the
total bounds of the boundary resolved by the external NISMOD service exactly
when the lad argument is truthy.  The resolved bounds are a parameter because
the service is an external collaborator. -/
def fishnetAoi (bbox : List ℚ) (lad : Option (List String))
    (resolvedBounds : List ℚ) : List ℚ :=
  if pyTruthy lad then resolvedBounds else bbox

/-- The 4-tuple unpacking at fishnet.py line 143; a list of any other length
raises a ValueError. -/
def unpackBBox4 (aoi : List ℚ) : Except PyError BBox :=
  match aoi with
  | [x0, y0, x1, y1] => .ok ⟨x0, y0, x1, y1⟩
  | _ => .error (.valueError "cannot unpack aoi into xmin, ymin, xmax, ymax")

/-- The grid-producing part of the try block of FishNet.create: boundary
choice, bounds unpacking, cell generation. -/
def fishnetBody (bbox : List ℚ) (lad : Option (List String))
    (resolvedBounds : List ℚ) (netsize : ℚ) : Except PyError (List Cell) :=
  match unpackBBox4 (fishnetAoi bbox lad resolvedBounds) with
  | .error e => .error e
  | .ok b => .ok (fishnetCells b netsize)

/-- Outcome of calling a Python method: a normal return value or a propagated
exception. -/
inductive Outcome (α : Type)
  | normal (v : α)
  | raised (e : PyError)
deriving DecidableEq, Repr

/-- FishNet.create including its enclosing try/except (fishnet.py lines
117 and 242-244): the bare except catches every failure in the body, logs the
traceback and returns None.  No exception escapes. -/
def fishnetCreate (bbox : List ℚ) (lad : Option (List String))
    (resolvedBounds : List ℚ) (netsize : ℚ) : Outcome (Option (List Cell)) :=
  match fishnetBody bbox lad resolvedBounds netsize with
  | .ok cells => .normal (some cells)
  | .error _ => .normal none

/-- Inputs of Rasteriser.create that the control flow depends on, with the two
external collaborators (overlay engine, NISMOD boundary service) as
parameters. -/
structure RasteriserInput where
  bounding_box : Option (List ℚ)
  fishnet : Option (List Cell)
  area_codes : List String
  resolution : ℚ
  area_threshold : ℚ
  invert : Bool
  ladResolvedBounds : List ℚ
  overlayFrags : List Cell → List (ℤ × ℚ)

/-- What a completed Rasteriser.create run produced. -/
structure RasterRun where
  merged : List (Cell × ℚ × ℤ)
  meta : RasterMeta
deriving DecidableEq, Repr

/-- Default FishNet bbox argument (fishnet.py line 65), in force on the LAD
path of Rasteriser.create where FishNet is constructed without a bbox. -/
def fishnetDefaultBBox : List ℚ := [90000, 10000, 400000, 660000]

/-- The try body of Rasteriser.create (rasteriser.py lines 150-246): choose
the boundary mode, obtain the fishnet cells, overlay, merge, classify and
compute the raster metadata.  A failure inside a nested FishNet.create
surfaces as its None return value, which raises at line 184 when converted to
a GeoDataFrame; both are modelled as the error propagating to the enclosing
handler. -/
def rasteriserBody (inp : RasteriserInput) : Except PyError RasterRun :=
  match chooseBoundary inp.bounding_box inp.fishnet inp.area_codes with
  | .error e => .error e
  | .ok src =>
    let cellsE : Except PyError (List Cell) :=
      match src with
      | .fromBBox bb => fishnetBody bb none [] inp.resolution
      | .fromSupplied f => .ok f
      | .fromLads codes =>
          fishnetBody fishnetDefaultBBox (some codes) inp.ladResolvedBounds inp.resolution
    match cellsE with
    | .error e => .error e
    | .ok cells =>
      let frags := inp.overlayFrags cells
      .ok { merged := assignInclude (intMerge cells frags) inp.area_threshold inp.invert
            meta := rasterMetaOf cells inp.resolution }

/-- Rasteriser.create including its try/except (rasteriser.py lines 149 and
248-249): the bare except catches every failure, logs the traceback, and the
method falls through to the finally block and returns None.  No exception
escapes and no raster is produced on failure. -/
def rasteriserCreate (inp : RasteriserInput) : Outcome (Option RasterRun) :=
  match rasteriserBody inp with
  | .ok r => .normal (some r)
  | .error _ => .normal none

/- ### Validation embedding (cerberus schema plus constructor logging loop) -/

/-- The argument record validated in Rasteriser.__init__ (rasteriser.py lines
108-117).  The fishnet and invert arguments are not part of the validated
dict. -/
structure RasteriserArgs where
  area_codes : List String
  bounding_box : Option (List ℚ)
  scale : String
  output_filename : String
  output_format : String
  resolution : ℚ
  area_threshold : ℚ
  nodata : ℤ
deriving DecidableEq, Repr

/-- The regex ^[A-Z][0-9]{8}$ used for area codes in both schemas. -/
def ladCodePattern (code : String) : Bool :=
  match code.data with
  | c :: rest => c.isUpper && rest.length == 8 && rest.all Char.isDigit
  | [] => false

/-- Whether one schema field of the Rasteriser argument schema (rasteriser.py
lines 26-71) is violated by the given arguments. -/
def fieldViolated (a : RasteriserArgs) (field : String) : Bool :=
  match field with
  | "area_codes" => !(a.area_codes.all ladCodePattern)
  | "bounding_box" =>
      match a.bounding_box with
      | none => false
      | some l => !(l.all (fun v => decide (-100000 ≤ v) && decide (v ≤ 1250000)))
  | "scale" => !(["oa", "lad", "gor"].contains a.scale)
  | "output_format" => !(["GeoTIFF", "ASCII"].contains a.output_format)
  | "resolution" => !(decide (10 ≤ a.resolution) && decide (a.resolution ≤ 10000))
  | "area_threshold" => !(decide (0 ≤ a.area_threshold) && decide (a.area_threshold ≤ 100))
  | "nodata" => !(a.nodata == 0 || a.nodata == 1)
  | _ => false

/-- The field names of the Rasteriser argument schema, the possible keys of
the cerberus error dictionary. -/
def rasteriserSchemaFields : List String :=
  ["area_codes", "bounding_box", "scale", "output_filename", "output_format",
    "resolution", "area_threshold", "nodata"]

/-- The cerberus error dictionary of Rasteriser.__init__ as the list of its
keys: every violated field is collected, not only the first. -/
def rasteriserValidationErrors (a : RasteriserArgs) : List String :=
  rasteriserSchemaFields.filter (fieldViolated a)

/-- The loop at rasteriser.py lines 140-141 (and fishnet.py 108-109):
iterating the cerberus error dictionary yields its keys, which are field-name
strings, and unpacking a key into the pair (name, errmsg) succeeds only when
the string has exactly two characters; otherwise a ValueError is raised. -/
def logErrorsLoop : List String → Except PyError Unit
  | [] => .ok ()
  | key :: rest =>
      if key.length == 2 then logErrorsLoop rest
      else .error (.valueError "cannot unpack field name into name, errmsg")

/-- State of a constructed Rasteriser: validated records whether the instance
attributes were assigned (rasteriser.py lines 123-136). -/
structure RasteriserInitState where
  validated : Bool
  args : RasteriserArgs
deriving DecidableEq, Repr

/-- Rasteriser.__init__ (rasteriser.py lines 106-141): validate, and on
failure run the logging loop over the error dictionary keys; the instance
attributes are assigned only on success.  No exception type named
ValidationError exists anywhere in the source. -/
def rasteriserInitRun (a : RasteriserArgs) : Except PyError RasteriserInitState :=
  if (rasteriserValidationErrors a).isEmpty then .ok ⟨true, a⟩
  else
    match logErrorsLoop (rasteriserValidationErrors a) with
    | .error e => .error e
    | .ok _ => .ok ⟨false, a⟩

/-- The argument record validated in FishNet.__init__ (fishnet.py 87-93). -/
structure FishNetArgs where
  outfile : Option String
  outformat : String
  lad : Option (List String)
  bbox : List ℚ
  netsize : ℚ
deriving DecidableEq, Repr

/-- Whether one field of the FishNet argument schema (fishnet.py lines 26-59)
is violated. -/
def fishnetFieldViolated (a : FishNetArgs) (field : String) : Bool :=
  match field with
  | "outformat" => !(["ESRI Shapefile", "GeoJSON"].contains a.outformat)
  | "lad" =>
      match a.lad with
      | none => false
      | some l => !(l.all ladCodePattern)
  | "bbox" => !(a.bbox.all (fun v => decide (-100000 ≤ v) && decide (v ≤ 1250000)))
  | "netsize" => !(decide (10 ≤ a.netsize) && decide (a.netsize ≤ 10000))
  | _ => false

/-- The field names of the FishNet argument schema. -/
def fishnetSchemaFields : List String :=
  ["outfile", "outformat", "lad", "bbox", "netsize"]

/-- The cerberus error dictionary of FishNet.__init__ as the list of its
keys. -/
def fishnetValidationErrors (a : FishNetArgs) : List String :=
  fishnetSchemaFields.filter (fishnetFieldViolated a)

/-- State of a constructed FishNet. -/
structure FishNetInitState where
  validated : Bool
  args : FishNetArgs
deriving DecidableEq, Repr

/-- Python truthiness of the outfile argument in the test at fishnet.py
line 84: falsy when None or the empty string. -/
def outfileFalsy (outfile : Option String) : Bool :=
  match outfile with
  | none => true
  | some st => st.isEmpty

/-- FishNet.__init__ (fishnet.py lines 82-109): the explicit ValueError for a
Shapefile request without an output file comes first, then validation with the
same logging loop as Rasteriser.__init__. -/
def fishnetInitRun (a : FishNetArgs) : Except PyError FishNetInitState :=
  if outfileFalsy a.outfile && a.outformat == "ESRI Shapefile" then
    .error (.valueError "Output filename should be supplied for writing to Shapefile")
  else
    if (fishnetValidationErrors a).isEmpty then .ok ⟨true, a⟩
    else
      match logErrorsLoop (fishnetValidationErrors a) with
      | .error e => .error e
      | .ok _ => .ok ⟨false, a⟩

/- ### Filesystem event traces for the temporal claims -/

/-- Side effects on files performed by the two create methods, in program
order.  removeOutputRaster is the event the specification calls for on an
aborted run; the source contains no call that would emit it. -/
inductive FsEvent
  | removeExistingOutput
  | createDataSource
  | writeCellFeature (fid : ℤ)
  | writeTempShapefile
  | createOutputRaster
  | fillNodata
  | rasterizeLayer
  | removeTempFiles
  | removeOutputRaster
deriving DecidableEq, Repr

/-- File events of FishNet.create when writing to a named output file
(fishnet.py lines 160-230): a pre-existing file at the output path is removed
(lines 178-180) before the data source is created (line 182) and before any
grid cell is generated and written (lines 193-229). -/
def fishnetCreateEvents (outputExists : Bool) (cells : List Cell) : List FsEvent :=
  (if outputExists then [FsEvent.removeExistingOutput] else []) ++
    [FsEvent.createDataSource] ++ cells.map (fun c => FsEvent.writeCellFeature c.fid)

/-- File events of Rasteriser.create (rasteriser.py lines 218-255): the
temporary shapefile is written (line 220), the output raster is created
(line 230) and filled with the nodata value (line 239), the layer is burned
(line 243) unless rasterisation raises, and the finally block removes only the
temporary shapefile parts (lines 250-255). -/
def rasteriserCreateEvents (rasterizeSucceeds : Bool) : List FsEvent :=
  [FsEvent.writeTempShapefile, FsEvent.createOutputRaster, FsEvent.fillNodata] ++
    (if rasterizeSucceeds then [FsEvent.rasterizeLayer] else []) ++
    [FsEvent.removeTempFiles]

/- ### Evaluation helpers for concrete ceilings and floors -/

theorem ceil_eval (q : ℚ) (z : ℤ) (h1 : (z : ℚ) - 1 < q) (h2 : q ≤ (z : ℚ)) :
    ⌈q⌉ = z := by
  rw [Int.ceil_eq_iff]
  exact ⟨h1, h2⟩

theorem floor_eval (q : ℚ) (z : ℤ) (h1 : (z : ℚ) ≤ q) (h2 : q < (z : ℚ) + 1) :
    ⌊q⌋ = z := by
  rw [Int.floor_eq_iff]
  constructor
  · exact_mod_cast h1
  · exact_mod_cast h2

theorem pyInt_eval (q : ℚ) (z : ℤ) (h0 : 0 ≤ q) (h1 : (z : ℚ) ≤ q)
    (h2 : q < (z : ℚ) + 1) : pyInt q = z := by
  rw [pyInt, if_neg (not_lt.mpr h0)]
  exact floor_eval q z h1 h2

/- ### Claim theorems -/

/-- C5: for every covered_area, threshold and invert flag the classification
returns 0 when the area strictly exceeds the threshold and invert is set,
1 when it strictly exceeds and invert is clear, and the opposite bit
otherwise; an area exactly equal to the threshold takes the else branch. -/
theorem c5_classify_threshold (area threshold : ℚ) (invert : Bool) :
    (area > threshold → classify area threshold invert = if invert then 0 else 1) ∧
    (area ≤ threshold → classify area threshold invert = if invert then 1 else 0) ∧
    classify threshold threshold invert = (if invert then 1 else 0) := by
  refine ⟨?_, ?_, ?_⟩
  · intro h
    rw [classify, if_pos h]
  · intro h
    rw [classify, if_neg (not_lt.mpr h)]
  · rw [classify, if_neg (lt_irrefl threshold)]

/-- Witness for c5_classify_threshold at concrete inputs, exercising both the
strict-exceedance branch and the tie. -/
theorem c5_classify_threshold_witness :
    ((60 : ℚ) > 50 ∧ classify 60 50 true = 0) ∧
    ((50 : ℚ) ≤ 50 ∧ classify 50 50 true = 1) ∧
    classify 50 50 false = 0 := by
  refine ⟨⟨by norm_num, ?_⟩, ⟨le_refl _, ?_⟩, ?_⟩
  · have h := (c5_classify_threshold 60 50 true).1 (by norm_num)
    simpa using h
  · have h := (c5_classify_threshold 50 50 true).2.1 (le_refl _)
    simpa using h
  · have h := (c5_classify_threshold 50 50 false).2.2
    simpa using h

/-- C10: precedence of boundary modes.  In Rasteriser.create a non-None
bounding box beats a supplied fishnet, which beats a non-empty area_codes
list; inside FishNet.create a truthy (non-None, non-empty) lad list replaces
the bbox with the resolved boundary total bounds, and a falsy one leaves the
bbox in force. -/
theorem c10_boundary_precedence :
    (∀ (bb : List ℚ) (fn : Option (List Cell)) (ac : List String),
      chooseBoundary (some bb) fn ac = .ok (.fromBBox bb)) ∧
    (∀ (f : List Cell) (ac : List String),
      chooseBoundary none (some f) ac = .ok (.fromSupplied f)) ∧
    (∀ ac : List String, ac ≠ [] →
      chooseBoundary none none ac = .ok (.fromLads ac)) ∧
    (∀ (bbox rb : List ℚ) (lad : List String), lad ≠ [] →
      fishnetAoi bbox (some lad) rb = rb) ∧
    (∀ bbox rb : List ℚ, fishnetAoi bbox none rb = bbox) ∧
    (∀ bbox rb : List ℚ, fishnetAoi bbox (some []) rb = bbox) := by
  refine ⟨fun bb fn ac => rfl, fun f ac => rfl, ?_, ?_, fun bbox rb => rfl,
    fun bbox rb => rfl⟩
  · intro ac h
    rw [chooseBoundary]
    simp [List.length_pos.mpr h]
  · intro bbox rb lad h
    rw [fishnetAoi, pyTruthy]
    simp [h]

/-- Witness for c10_boundary_precedence at concrete inputs. -/
theorem c10_boundary_precedence_witness :
    (["E06000001"] ≠ ([] : List String) ∧
      chooseBoundary none none ["E06000001"] = .ok (.fromLads ["E06000001"])) ∧
    fishnetAoi [0, 0, 1, 1] (some ["E06000001"]) [5, 5, 6, 6] = [5, 5, 6, 6] := by
  refine ⟨⟨by simp, ?_⟩, ?_⟩
  · exact c10_boundary_precedence.2.2.1 ["E06000001"] (by simp)
  · exact c10_boundary_precedence.2.2.2.1 [0, 0, 1, 1] [5, 5, 6, 6] ["E06000001"] (by simp)

/-- C9: neither create method lets an exception escape.  Every failure of the
pipeline body, including the ValueError raised when no boundary information is
supplied, is absorbed by the bare except: FishNet.create returns None and
Rasteriser.create returns without a raster, so the caller cannot tell failure
kinds apart from the result. -/
theorem c9_no_exception_escapes :
    (∀ (inp : RasteriserInput) (e : PyError),
      rasteriserCreate inp ≠ Outcome.raised e) ∧
    (∀ (bbox : List ℚ) (lad : Option (List String)) (rb : List ℚ) (s : ℚ)
      (e : PyError), fishnetCreate bbox lad rb s ≠ Outcome.raised e) ∧
    (∀ inp : RasteriserInput,
      inp.bounding_box = none → inp.fishnet = none → inp.area_codes = [] →
      rasteriserBody inp = .error (.valueError "No boundary information supplied - please supply fishnet GeoJSON, bounding box, or list of LAD codes") ∧
      rasteriserCreate inp = .normal none) := by
  refine ⟨?_, ?_, ?_⟩
  · intro inp e
    rw [rasteriserCreate]
    cases rasteriserBody inp <;> simp
  · intro bbox lad rb s e
    rw [fishnetCreate]
    cases fishnetBody bbox lad rb s <;> simp
  · intro inp h1 h2 h3
    have hb : rasteriserBody inp = .error (.valueError "No boundary information supplied - please supply fishnet GeoJSON, bounding box, or list of LAD codes") := by
      rw [rasteriserBody, h1, h2, h3]
      rfl
    exact ⟨hb, by rw [rasteriserCreate, hb]⟩

/-- C8: the value attached to every row that survives the merge is the per-FID
summed fragment area divided by the fixed constant 100; the merge and
classification steps take no resolution argument at all, so the divisor cannot
depend on it. -/
theorem c8_divisor_100 (cells : List Cell) (frags : List (ℤ × ℚ))
    (threshold : ℚ) (invert : Bool) (e : Cell × ℚ × ℤ)
    (he : e ∈ assignInclude (intMerge cells frags) threshold invert) :
    e.2.1 = groupbySumArea frags e.1.fid / 100 := by
  obtain ⟨me, hme, rfl⟩ := List.mem_map.mp he
  obtain ⟨c, _, rfl⟩ := List.mem_map.mp hme
  rfl

/-- Witness for c8_divisor_100: one cell, one fragment of area 200, merged
value 200/100 = 2. -/
theorem c8_divisor_100_witness :
    ((⟨1, []⟩, 2, 1) : Cell × ℚ × ℤ) ∈
        assignInclude (intMerge [⟨1, []⟩] [(1, 200)]) 50 true ∧
    ((⟨1, []⟩, 2, 1) : Cell × ℚ × ℤ).2.1 =
      groupbySumArea [(1, 200)] ((⟨1, []⟩, 2, 1) : Cell × ℚ × ℤ).1.fid / 100 := by
  have hmem : ((⟨1, []⟩, 2, 1) : Cell × ℚ × ℤ) ∈
      assignInclude (intMerge [⟨1, []⟩] [(1, 200)]) 50 true := by
    norm_num [assignInclude, intMerge, groupbySumArea, classify]
  exact ⟨hmem, c8_divisor_100 [⟨1, []⟩] [(1, 200)] 50 true _ hmem⟩

/-- C6: cells are generated column-major (row varies fastest inside a column,
columns go left to right): the cell stored at index c*rows + r has origin
(xmin + c*resolution, ymax - r*resolution), extends one resolution unit right
and down as a closed 5-coordinate ring whose first and last points coincide,
and carries FID = c*rows + r + 1; for extent [0,0,200,200] at resolution 100
this yields exactly the four cells FID1..FID4 in column-major order. -/
theorem c6_column_major_cells :
    (∀ (b : BBox) (s : ℚ) (c r : ℕ),
      c < (colsZ b s).toNat → r < (rowsZ b s).toNat →
      (fishnetCells b s)[c * (rowsZ b s).toNat + r]? =
        some ⟨(c : ℤ) * ((rowsZ b s).toNat : ℤ) + (r : ℤ) + 1,
          makeRing (b.xmin + c * s) (b.xmin + c * s + s)
            (b.ymax - r * s) (b.ymax - r * s - s)⟩) ∧
    (∀ xL xR yT yB : ℚ, (makeRing xL xR yT yB).length = 5 ∧
      (makeRing xL xR yT yB).head? = some (xL, yT) ∧
      (makeRing xL xR yT yB).getLast? = some (xL, yT)) ∧
    fishnetCells ⟨0, 0, 200, 200⟩ 100 =
      [⟨1, makeRing 0 100 200 100⟩, ⟨2, makeRing 0 100 100 0⟩,
        ⟨3, makeRing 100 200 200 100⟩, ⟨4, makeRing 100 200 100 0⟩] := by
  refine ⟨?_, ?_, ?_⟩
  · intro b s c r hc hr
    rw [fishnetCells_getElem? b s c r hc hr]
    congr 2
    push_cast
    ring
  · intro xL xR yT yB
    exact ⟨rfl, rfl, rfl⟩
  · have hcols : colsZ ⟨0, 0, 200, 200⟩ 100 = 2 := by
      rw [colsZ]
      exact ceil_eval _ 2 (by norm_num) (by norm_num)
    have hrows : rowsZ ⟨0, 0, 200, 200⟩ 100 = 2 := by
      rw [rowsZ]
      exact ceil_eval _ 2 (by norm_num) (by norm_num)
    rw [fishnetCells, hcols, hrows]
    norm_num [genColumns, genColumn, makeRing]

/-- Witness for c6_column_major_cells: the general characterization applied at
column 1, row 0 of the scenario grid gives the cell with FID 3 at index 2. -/
theorem c6_column_major_cells_witness :
    1 < (colsZ ⟨0, 0, 200, 200⟩ 100).toNat ∧
    0 < (rowsZ ⟨0, 0, 200, 200⟩ 100).toNat ∧
    (fishnetCells ⟨0, 0, 200, 200⟩ 100)[1 * (rowsZ ⟨0, 0, 200, 200⟩ 100).toNat + 0]? =
      some ⟨(1 : ℤ) * ((rowsZ ⟨0, 0, 200, 200⟩ 100).toNat : ℤ) + (0 : ℤ) + 1,
        makeRing ((0 : ℚ) + (1 : ℕ) * 100) ((0 : ℚ) + (1 : ℕ) * 100 + 100)
          ((200 : ℚ) - (0 : ℕ) * 100) ((200 : ℚ) - (0 : ℕ) * 100 - 100)⟩ := by
  have hcols : colsZ ⟨0, 0, 200, 200⟩ 100 = 2 := by
    rw [colsZ]
    exact ceil_eval _ 2 (by norm_num) (by norm_num)
  have hrows : rowsZ ⟨0, 0, 200, 200⟩ 100 = 2 := by
    rw [rowsZ]
    exact ceil_eval _ 2 (by norm_num) (by norm_num)
  have hc : 1 < (colsZ ⟨0, 0, 200, 200⟩ 100).toNat := by rw [hcols]; norm_num
  have hr : 0 < (rowsZ ⟨0, 0, 200, 200⟩ 100).toNat := by rw [hrows]; norm_num
  exact ⟨hc, hr, c6_column_major_cells.1 ⟨0, 0, 200, 200⟩ 100 1 0 hc hr⟩

/-- C7: for every valid extent and positive resolution the generated grid has
ceil((ymax-ymin)/resolution) rows and ceil((xmax-xmin)/resolution) columns,
contains exactly rows*cols cells whose FID list is exactly [1, .., rows*cols]
(contiguous, duplicate-free), and the union of the cell rectangles covers
every point of the extent. -/
theorem c7_grid_counts_fids_cover (b : BBox) (s : ℚ) (hs : 0 < s)
    (hx : b.xmin < b.xmax) (hy : b.ymin < b.ymax) :
    (fishnetCells b s).length
        = (⌈(b.ymax - b.ymin) / s⌉.toNat) * (⌈(b.xmax - b.xmin) / s⌉.toNat) ∧
    (fishnetCells b s).map Cell.fid
        = (List.range ((⌈(b.ymax - b.ymin) / s⌉.toNat) * (⌈(b.xmax - b.xmin) / s⌉.toNat))).map
            (fun i : ℕ => (i : ℤ) + 1) ∧
    (∀ x y : ℚ, b.xmin ≤ x → x ≤ b.xmax → b.ymin ≤ y → y ≤ b.ymax →
      ∃ cl ∈ fishnetCells b s, ringContains cl.ring (x, y)) := by
  have hrows : ⌈(b.ymax - b.ymin) / s⌉ = rowsZ b s := rfl
  have hcols : ⌈(b.xmax - b.xmin) / s⌉ = colsZ b s := rfl
  rw [hrows, hcols]
  refine ⟨?_, ?_, ?_⟩
  · rw [fishnetCells_length, Nat.mul_comm]
  · rw [fishnetCells_map_fid, Nat.mul_comm]
  · intro x y h1 h2 h3 h4
    exact fishnetCells_cover b s hs hx hy x y h1 h2 h3 h4

/-- Witness for c7_grid_counts_fids_cover at the extent [0,0,200,200] with
resolution 100, including the covering cell for the interior point
(150, 50). -/
theorem c7_grid_counts_fids_cover_witness :
    (0 : ℚ) < 100 ∧
    (⟨0, 0, 200, 200⟩ : BBox).xmin < (⟨0, 0, 200, 200⟩ : BBox).xmax ∧
    (⟨0, 0, 200, 200⟩ : BBox).ymin < (⟨0, 0, 200, 200⟩ : BBox).ymax ∧
    (fishnetCells ⟨0, 0, 200, 200⟩ 100).length
        = (⌈((⟨0, 0, 200, 200⟩ : BBox).ymax - (⟨0, 0, 200, 200⟩ : BBox).ymin) / 100⌉.toNat)
            * (⌈((⟨0, 0, 200, 200⟩ : BBox).xmax - (⟨0, 0, 200, 200⟩ : BBox).xmin) / 100⌉.toNat) ∧
    (∃ cl ∈ fishnetCells ⟨0, 0, 200, 200⟩ 100, ringContains cl.ring (150, 50)) := by
  have h := c7_grid_counts_fids_cover ⟨0, 0, 200, 200⟩ 100 (by norm_num)
    (by norm_num) (by norm_num)
  exact ⟨by norm_num, by norm_num, by norm_num, h.1,
    h.2.2 150 50 (by norm_num) (by norm_num) (by norm_num) (by norm_num)⟩

/-- C2 corrected: the raster dimensions are computed by int() truncation of
the span of the fishnet total bounds, not of the supplied extent.  For a
bbox-generated fishnet the total bounds span is cols*resolution by
rows*resolution, so the raster is cols = ceil((xmax-xmin)/resolution) pixels
wide and rows = ceil((ymax-ymin)/resolution) pixels high, and the
geotransform is (xmin, resolution, 0, ymax, 0, -resolution). -/
theorem c2_raster_meta_amended (b : BBox) (s : ℚ) (hs : 0 < s)
    (hx : b.xmin < b.xmax) (hy : b.ymin < b.ymax) :
    (rasterMetaOf (fishnetCells b s) s).xdim = colsZ b s ∧
    (rasterMetaOf (fishnetCells b s) s).ydim = rowsZ b s ∧
    (rasterMetaOf (fishnetCells b s) s).geotransform
      = (b.xmin, s, 0, b.ymax, 0, -s) := by
  have htb := totalBounds_fishnetCells b s hs hx hy
  have hcolpos : 0 < colsZ b s := Int.ceil_pos.mpr (div_pos (by linarith) hs)
  have hrowpos : 0 < rowsZ b s := Int.ceil_pos.mpr (div_pos (by linarith) hs)
  refine ⟨?_, ?_, ?_⟩
  · simp only [rasterMetaOf]
    rw [htb]
    have h1 : (b.xmin + ((colsZ b s).toNat : ℚ) * s - b.xmin) / s
        = ((colsZ b s).toNat : ℚ) := by
      field_simp
    simp only [h1]
    rw [pyInt, if_neg (not_lt.mpr (by positivity)), Int.floor_natCast]
    exact Int.toNat_of_nonneg hcolpos.le
  · simp only [rasterMetaOf]
    rw [htb]
    have h1 : (b.ymax - (b.ymax - ((rowsZ b s).toNat : ℚ) * s)) / s
        = ((rowsZ b s).toNat : ℚ) := by
      field_simp
    simp only [h1]
    rw [pyInt, if_neg (not_lt.mpr (by positivity)), Int.floor_natCast]
    exact Int.toNat_of_nonneg hrowpos.le
  · simp only [rasterMetaOf]
    rw [htb]

/-- Witness for c2_raster_meta_amended at extent [0,0,250,200], resolution
100: the raster is 3 x 2 pixels, matching the ceiling-division grid. -/
theorem c2_raster_meta_amended_witness :
    (0 : ℚ) < 100 ∧
    (⟨0, 0, 250, 200⟩ : BBox).xmin < (⟨0, 0, 250, 200⟩ : BBox).xmax ∧
    (⟨0, 0, 250, 200⟩ : BBox).ymin < (⟨0, 0, 250, 200⟩ : BBox).ymax ∧
    (rasterMetaOf (fishnetCells ⟨0, 0, 250, 200⟩ 100) 100).xdim
      = colsZ ⟨0, 0, 250, 200⟩ 100 ∧
    (rasterMetaOf (fishnetCells ⟨0, 0, 250, 200⟩ 100) 100).ydim
      = rowsZ ⟨0, 0, 250, 200⟩ 100 := by
  have h := c2_raster_meta_amended ⟨0, 0, 250, 200⟩ 100 (by norm_num)
    (by norm_num) (by norm_num)
  exact ⟨by norm_num, by norm_num, by norm_num, h.1, h.2.1⟩

/-- C2 counterexample: for extent [0,0,250,200] and resolution 100 the code
produces a raster 3 pixels wide, while floor((xmax-xmin)/resolution) as the
claim states is 2. -/
theorem c2_raster_dims_counterexample :
    (rasterMetaOf (fishnetCells ⟨0, 0, 250, 200⟩ 100) 100).xdim = 3 ∧
    pyInt (((⟨0, 0, 250, 200⟩ : BBox).xmax - (⟨0, 0, 250, 200⟩ : BBox).xmin) / 100) = 2 ∧
    (rasterMetaOf (fishnetCells ⟨0, 0, 250, 200⟩ 100) 100).xdim ≠
      pyInt (((⟨0, 0, 250, 200⟩ : BBox).xmax - (⟨0, 0, 250, 200⟩ : BBox).xmin) / 100) := by
  have hcols : colsZ ⟨0, 0, 250, 200⟩ 100 = 3 := by
    rw [colsZ]
    exact ceil_eval _ 3 (by norm_num) (by norm_num)
  have hrows : rowsZ ⟨0, 0, 250, 200⟩ 100 = 2 := by
    rw [rowsZ]
    exact ceil_eval _ 2 (by norm_num) (by norm_num)
  have htb := totalBounds_fishnetCells ⟨0, 0, 250, 200⟩ 100 (by norm_num)
    (by norm_num) (by norm_num)
  rw [hcols, hrows] at htb
  have h1 : (rasterMetaOf (fishnetCells ⟨0, 0, 250, 200⟩ 100) 100).xdim = 3 := by
    simp only [rasterMetaOf]
    rw [htb]
    exact pyInt_eval _ 3 (by norm_num) (by norm_num) (by norm_num)
  have h2 : pyInt (((⟨0, 0, 250, 200⟩ : BBox).xmax
      - (⟨0, 0, 250, 200⟩ : BBox).xmin) / 100) = 2 :=
    pyInt_eval _ 2 (by norm_num) (by norm_num) (by norm_num)
  refine ⟨h1, h2, ?_⟩
  rw [h1, h2]
  decide

/-- Every key of the Rasteriser cerberus error dictionary is a schema field
name, none of which has length 2. -/
theorem rasteriserFields_len (k : String) (hk : k ∈ rasteriserSchemaFields) :
    k.length ≠ 2 := by
  rw [rasteriserSchemaFields] at hk
  simp only [List.mem_cons, List.not_mem_nil, or_false] at hk
  rcases hk with rfl | rfl | rfl | rfl | rfl | rfl | rfl | rfl <;> decide

/-- Every key of the FishNet cerberus error dictionary is a schema field name,
none of which has length 2. -/
theorem fishnetFields_len (k : String) (hk : k ∈ fishnetSchemaFields) :
    k.length ≠ 2 := by
  rw [fishnetSchemaFields] at hk
  simp only [List.mem_cons, List.not_mem_nil, or_false] at hk
  rcases hk with rfl | rfl | rfl | rfl | rfl <;> decide

/-- A non-empty error-key list whose keys all have length other than 2 makes
the logging loop raise on its first iteration. -/
theorem logErrorsLoop_raises (l : List String) (hne : l ≠ [])
    (hlen : ∀ k ∈ l, k.length ≠ 2) :
    logErrorsLoop l
      = .error (.valueError "cannot unpack field name into name, errmsg") := by
  cases l with
  | nil => exact absurd rfl hne
  | cons k rest =>
    rw [logErrorsLoop]
    have hk := hlen k (List.mem_cons_self k rest)
    rw [if_neg (by simpa using hk)]

/-- C3 amended: a schema-violating argument set does abort each constructor
before any pipeline work, but via a ValueError raised while formatting the log
(iterating the cerberus error dictionary yields field-name strings that fail
2-tuple unpacking), not via a ValidationError, and no violated constraint is
reported. -/
theorem c3_validation_amended :
    (∀ a : RasteriserArgs, rasteriserValidationErrors a ≠ [] →
      rasteriserInitRun a
        = .error (.valueError "cannot unpack field name into name, errmsg") ∧
      isValidationError (.valueError "cannot unpack field name into name, errmsg")
        = false) ∧
    (∀ a : FishNetArgs,
      (outfileFalsy a.outfile && a.outformat == "ESRI Shapefile") = false →
      fishnetValidationErrors a ≠ [] →
      fishnetInitRun a
        = .error (.valueError "cannot unpack field name into name, errmsg")) := by
  constructor
  · intro a h
    have hloop := logErrorsLoop_raises (rasteriserValidationErrors a) h
      (fun k hk => rasteriserFields_len k (List.mem_of_mem_filter hk))
    rw [rasteriserInitRun, if_neg (by simpa [List.isEmpty_iff] using h), hloop]
    exact ⟨rfl, rfl⟩
  · intro a hof h
    have hloop := logErrorsLoop_raises (fishnetValidationErrors a) h
      (fun k hk => fishnetFields_len k (List.mem_of_mem_filter hk))
    rw [fishnetInitRun, if_neg (by simp [hof]),
      if_neg (by simpa [List.isEmpty_iff] using h), hloop]

/-- Witness for c3_validation_amended: resolution 5 violates the schema
minimum of 10 and the constructor raises the unpacking ValueError. -/
theorem c3_validation_amended_witness :
    rasteriserValidationErrors
        ⟨[], none, "lad", "output_raster.tif", "GeoTIFF", 5, 50, 1⟩ ≠ [] ∧
    rasteriserInitRun ⟨[], none, "lad", "output_raster.tif", "GeoTIFF", 5, 50, 1⟩
      = .error (.valueError "cannot unpack field name into name, errmsg") := by
  have h : rasteriserValidationErrors
      ⟨[], none, "lad", "output_raster.tif", "GeoTIFF", 5, 50, 1⟩ ≠ [] := by decide
  exact ⟨h, (c3_validation_amended.1 _ h).1⟩

/-- C3 counterexample: for the schema-violating resolution 5 the validator
collects the single violated field, but the constructor terminates with a
ValueError from the logging loop that is not a ValidationError and names no
constraint, refuting the claim that the run fails with a ValidationError
naming each violated constraint. -/
theorem c3_validation_counterexample :
    rasteriserValidationErrors
        ⟨[], none, "lad", "output_raster.tif", "GeoTIFF", 5, 50, 1⟩
      = ["resolution"] ∧
    rasteriserInitRun ⟨[], none, "lad", "output_raster.tif", "GeoTIFF", 5, 50, 1⟩
      = .error (.valueError "cannot unpack field name into name, errmsg") ∧
    isValidationError (.valueError "cannot unpack field name into name, errmsg")
      = false := by
  have h1 : rasteriserValidationErrors
      ⟨[], none, "lad", "output_raster.tif", "GeoTIFF", 5, 50, 1⟩
      = ["resolution"] := by decide
  refine ⟨h1, ?_, rfl⟩
  rw [rasteriserInitRun, h1]
  rfl

/-- C4 amended: FishNet.create deletes a pre-existing output file first,
before the data source is created or any grid cell is written;
Rasteriser.create creates and nodata-fills the output raster before burning,
and when rasterisation fails the run removes only the temporary shapefile,
leaving the partially initialized raster at the output path. -/
theorem c4_output_lifecycle_amended :
    (∀ cells : List Cell,
      (fishnetCreateEvents true cells).head? = some FsEvent.removeExistingOutput) ∧
    (∀ flag : Bool,
      FsEvent.createOutputRaster ∈ rasteriserCreateEvents flag ∧
      FsEvent.removeOutputRaster ∉ rasteriserCreateEvents flag ∧
      FsEvent.removeTempFiles ∈ rasteriserCreateEvents flag) ∧
    FsEvent.rasterizeLayer ∉ rasteriserCreateEvents false := by
  refine ⟨fun cells => rfl, ?_, by decide⟩
  intro flag
  cases flag <;> refine ⟨by decide, by decide, by decide⟩

/-- C4 counterexample: with a pre-existing output file the very first event of
FishNet.create is the deletion, before any cell is written; and on a run whose
rasterisation step fails, the output raster has been created and is never
removed, while only the temporary shapefile is cleaned up. -/
theorem c4_output_lifecycle_counterexample :
    fishnetCreateEvents true [⟨1, []⟩]
      = [FsEvent.removeExistingOutput, FsEvent.createDataSource,
          FsEvent.writeCellFeature 1] ∧
    rasteriserCreateEvents false
      = [FsEvent.writeTempShapefile, FsEvent.createOutputRaster,
          FsEvent.fillNodata, FsEvent.removeTempFiles] ∧
    FsEvent.createOutputRaster ∈ rasteriserCreateEvents false ∧
    FsEvent.rasterizeLayer ∉ rasteriserCreateEvents false ∧
    FsEvent.removeOutputRaster ∉ rasteriserCreateEvents false := by
  refine ⟨by decide, by decide, by decide, by decide, by decide⟩

/-- C1: the merge at rasteriser.py line 202 uses the pandas default inner
join, so a grid cell owning no intersection fragment is dropped from the
aggregation output instead of being kept with covered area 0.  For the
two-cell grid of extent [0,0,200,100] at resolution 100 and a single fragment
on FID 1, the merged output has one row and FID 2 is gone. -/
theorem c1_merge_inner_join_drops_cell :
    (fishnetCells ⟨0, 0, 200, 100⟩ 100).map Cell.fid = [1, 2] ∧
    intMerge (fishnetCells ⟨0, 0, 200, 100⟩ 100) [(1, 5000)]
      = [(⟨1, makeRing 0 100 100 0⟩, 50)] ∧
    ((intMerge (fishnetCells ⟨0, 0, 200, 100⟩ 100) [(1, 5000)]).map
        (fun e => e.1.fid)).contains 2 = false := by
  have hcols : colsZ ⟨0, 0, 200, 100⟩ 100 = 2 := by
    rw [colsZ]
    exact ceil_eval _ 2 (by norm_num) (by norm_num)
  have hrows : rowsZ ⟨0, 0, 200, 100⟩ 100 = 1 := by
    rw [rowsZ]
    exact ceil_eval _ 1 (by norm_num) (by norm_num)
  have hcells : fishnetCells ⟨0, 0, 200, 100⟩ 100
      = [⟨1, makeRing 0 100 100 0⟩, ⟨2, makeRing 100 200 100 0⟩] := by
    rw [fishnetCells, hcols, hrows]
    norm_num [genColumns, genColumn, makeRing]
  rw [hcells]
  refine ⟨by norm_num, ?_, by norm_num [intMerge]⟩
  norm_num [intMerge, groupbySumArea]

/-- Witness for c9_no_exception_escapes: with no bounding box, no fishnet and
no area codes, create returns normally with no raster instead of propagating
the ValueError raised inside the body. -/
theorem c9_no_exception_escapes_witness :
    rasteriserCreate
      { bounding_box := none, fishnet := none, area_codes := []
        resolution := 100, area_threshold := 50, invert := true
        ladResolvedBounds := [], overlayFrags := fun _ => [] }
      = Outcome.normal none := by
  exact (c9_no_exception_escapes.2.2
    { bounding_box := none, fishnet := none, area_codes := []
      resolution := 100, area_threshold := 50, invert := true
      ladResolvedBounds := [], overlayFrags := fun _ => [] } rfl rfl rfl).2
